import Mathlib

/-!
Shallow embedding of the librpc typing layer and server lifecycle
(src/src/rpc_server.c, typing.h, internal.h), with theorems checking the
natural-language specification against the code.

Conventions of the embedding:
- C pointers that may be NULL become `Option`.
- GLib hash tables become association lists; `g_hash_table_insert` prepends
  a binding (which shadows any earlier binding for the same key, matching
  the replace semantics observable through lookup). GHashTableIter
  iteration order is unspecified in GLib; the list model iterates in
  insertion order, and no theorem below relies on a hash-iteration
  order.
- GPtrArray becomes `List`.
- The global type table (`context->types`) is passed as a lookup function
  `String → Option RpctType`; `rpct_find_type`'s chain-loading side effect
  is absorbed into that table (the lookup models the table state after any
  chain load).
- Pointer identity (needed for the canonical-cache claim) is modelled by
  allocation ids drawn from a counter threaded through the state.
-/

namespace Librpc

/-- Type classes of IDL types (`rpct_class_t` in typing.h). -/
inductive RpctClass where
  | struct_
  | union_
  | enum_
  | typedef_
  | builtin_
deriving DecidableEq

mutual
/-- `struct rpct_type`: a named IDL type with optional parent, generic
variable list, class tag and (for typedefs) a definition type instance.
Representing the parent / definition pointers as nested values makes the
parent chain and the typedef chain acyclic by construction, which is the
"typedef forms no cycles" well-formedness the loader guarantees. -/
inductive RpctType : Type where
  | mk (name : String) (parent : Option RpctType) (generic : Bool)
      (generic_vars : List String) (clazz : RpctClass)
      (definition : Option RpctTypei) : RpctType

/-- `struct rpct_typei`: a (possibly proxy) type instance. `specializations`
is the generic-variable → instance table, kept in insertion order. -/
inductive RpctTypei : Type where
  | mk (proxy : Bool) (varName : String) (type : RpctType)
      (specializations : List (String × RpctTypei)) : RpctTypei
end

/-- Accessor for `rpct_type->name`. -/
def RpctType.name : RpctType → String
  | .mk n _ _ _ _ _ => n

/-- Accessor for `rpct_type->parent`. -/
def RpctType.parent : RpctType → Option RpctType
  | .mk _ p _ _ _ _ => p

/-- Accessor for `rpct_type->generic`. -/
def RpctType.generic : RpctType → Bool
  | .mk _ _ g _ _ _ => g

/-- Accessor for `rpct_type->generic_vars`. -/
def RpctType.generic_vars : RpctType → List String
  | .mk _ _ _ v _ _ => v

/-- Accessor for `rpct_type->clazz`. -/
def RpctType.clazz : RpctType → RpctClass
  | .mk _ _ _ _ c _ => c

/-- Accessor for `rpct_type->definition`. -/
def RpctType.definition : RpctType → Option RpctTypei
  | .mk _ _ _ _ _ d => d

/-- Accessor for `rpct_typei->proxy`. -/
def RpctTypei.proxy : RpctTypei → Bool
  | .mk p _ _ _ => p

/-- Accessor for `rpct_typei->variable` (the proxy variable name). -/
def RpctTypei.varName : RpctTypei → String
  | .mk _ v _ _ => v

/-- Accessor for `rpct_typei->type`. -/
def RpctTypei.type : RpctTypei → RpctType
  | .mk _ _ t _ => t

/-- Accessor for `rpct_typei->specializations`. -/
def RpctTypei.specializations : RpctTypei → List (String × RpctTypei)
  | .mk _ _ _ s => s

/-- The loaded-types table `context->types`, as a lookup function. -/
abbrev TypeTable := String → Option RpctType

/-- A loaded IDL file's lookup-relevant metadata (`struct rpct_file`):
declared namespace and the `use` list from the meta section. -/
structure RpctFile where
  ns : Option String
  uses : List String
deriving DecidableEq

/-- `rpct_find_type`, as the table lookup it amounts to once the
chain-loading side effect is absorbed into the table. -/
def rpct_find_type (types : TypeTable) (name : String) : Option RpctType :=
  types name

/-- The `use`-list loop of `rpct_find_type_fuzzy` (rpc_server.c lines
436-443): try each entry of the file's use list as a dotted qualifier. -/
def rpct_find_type_uses (types : TypeTable) (name : String) :
    List String → Option RpctType
  | [] => none
  | u :: rest =>
    match rpct_find_type types (u ++ "." ++ name) with
    | some result => some result
    | none => rpct_find_type_uses types name rest

/-- `rpct_find_type_fuzzy` (rpc_server.c lines 413-446): verbatim lookup,
then the file's namespace as qualifier, then each `use` entry. -/
def rpct_find_type_fuzzy (types : TypeTable) (name : String)
    (origin : Option RpctFile) : Option RpctType :=
  match rpct_find_type types name with
  | some result => some result
  | none =>
    match origin with
    | none => none
    | some origin =>
      match origin.ns with
      | some ns =>
        match rpct_find_type types (ns ++ "." ++ name) with
        | some result => some result
        | none => rpct_find_type_uses types name origin.uses
      | none => rpct_find_type_uses types name origin.uses

/-- The candidate names fuzzy resolution tries, in the order the spec
states them: the name verbatim, the file namespace qualifier, then each
`use` entry qualifier. -/
def fuzzy_candidates (name : String) (origin : RpctFile) : List String :=
  name ::
    ((match origin.ns with
      | some ns => [ns ++ "." ++ name]
      | none => []) ++ origin.uses.map (fun u => u ++ "." ++ name))

/-- First type found among a candidate list; `none` when no candidate
matches. -/
def firstFound (types : TypeTable) : List String → Option RpctType
  | [] => none
  | c :: rest =>
    match types c with
    | some result => some result
    | none => firstFound types rest

theorem rpct_find_type_uses_eq_firstFound (types : TypeTable) (name : String)
    (uses : List String) :
    rpct_find_type_uses types name uses =
      firstFound types (uses.map (fun u => u ++ "." ++ name)) := by
  induction uses with
  | nil => rfl
  | cons u rest ih =>
    simp only [rpct_find_type_uses, firstFound, List.map_cons, rpct_find_type]
    cases types (u ++ "." ++ name) <;> simp [ih]

/-- C6: fuzzy type name resolution tries, in order, the name verbatim, the
file's declared namespace as a dotted qualifier, then each entry of the
file's use list as a dotted qualifier, and returns the first type found
(or not-found when no candidate matches). -/
theorem c6_fuzzy_resolution_order (types : TypeTable) (name : String)
    (origin : RpctFile) :
    rpct_find_type_fuzzy types name (some origin) =
      firstFound types (fuzzy_candidates name origin) := by
  simp only [rpct_find_type_fuzzy, fuzzy_candidates, firstFound,
    rpct_find_type]
  cases types name with
  | some result => rfl
  | none =>
    cases h : origin.ns with
    | some ns =>
      simp only [List.singleton_append, firstFound]
      cases types (ns ++ "." ++ name) <;>
        simp [rpct_find_type_uses_eq_firstFound]
    | none =>
      simp [rpct_find_type_uses_eq_firstFound]

/-- The parent-chain walk inside `rpct_type_is_compatible` (rpc_server.c
lines 787-798): step to the parent first, then compare each ancestor's
name against `target`, stopping at the chain's end. -/
def rpct_parent_chain_search : Option RpctType → String → Bool
  | none, _ => false
  | some (.mk n par _ _ _ _), target =>
    if n == target then true else rpct_parent_chain_search par target

/-- `rpct_type_is_compatible` (rpc_server.c lines 773-815). Note that the
walk's comparison target is `type->type->name` — the checked instance's
own type name — exactly as in the source (lines 793-794). -/
def rpct_type_is_compatible (decl type : RpctTypei) : Bool :=
  if decl.type.name == "any" then true
  else if decl.specializations.length < type.specializations.length then
    false
  else if decl.type.name != type.type.name then
    rpct_parent_chain_search type.type.parent type.type.name
  else true

/-- The compatibility predicate the spec states: `decl` named `any` is
always compatible; more specializations on `type` than on `decl` is
incompatible; otherwise compatible iff the names match or walking the
parent chain of `type`'s type reaches `decl`'s type (by name). -/
def rpct_type_is_compatible_claim (decl type : RpctTypei) : Bool :=
  if decl.type.name == "any" then true
  else if decl.specializations.length < type.specializations.length then
    false
  else
    decl.type.name == type.type.name ||
      rpct_parent_chain_search type.type.parent decl.type.name

/-- Example type `B`, parent of `A`. -/
def exTypeB : RpctType := .mk "B" none false [] .struct_ none

/-- Example type `A`, a struct inheriting from `B`. -/
def exTypeA : RpctType := .mk "A" (some exTypeB) false [] .struct_ none

/-- A type instance of `B` (the declared type). -/
def exTypeiB : RpctTypei := .mk false "" exTypeB []

/-- A type instance of `A` (the value's type). -/
def exTypeiA : RpctTypei := .mk false "" exTypeA []

/-- C1: with `decl = B` and `type = A` where `A` inherits from `B`, the
claim's relation (parent chain of `A` reaches `B`) holds, yet the code
returns false: the source walks `A`'s ancestors comparing their names
against `A`'s own name (`type->type->name`) instead of `decl`'s, so the
inheritance branch can never succeed on an acyclic chain of distinct
names. -/
theorem c1_parent_chain_compares_wrong_name :
    rpct_type_is_compatible exTypeiB exTypeiA = false ∧
      rpct_type_is_compatible_claim exTypeiB exTypeiA = true := by
  constructor <;>
    simp [rpct_type_is_compatible, rpct_type_is_compatible_claim,
      rpct_parent_chain_search, exTypeiA, exTypeiB, exTypeA, exTypeB,
      RpctTypei.type, RpctTypei.specializations, RpctType.name,
      RpctType.parent]

/-- `rpct_unwind_typei` (rpc_server.c lines 756-771): follow the typedef
`definition` chain until a non-typedef instance (or a NULL definition)
is reached. -/
def rpct_unwind_typei : Option RpctTypei → Option RpctTypei
  | none => none
  | some (.mk proxy vn (.mk n par g vars cz d) specs) =>
    if cz = .typedef_ then rpct_unwind_typei d
    else some (.mk proxy vn (.mk n par g vars cz d) specs)

/-- Loader-established well-formedness: every typedef reached along the
definition chain has a non-NULL definition (`rpct_read_type` asserts
`g_assert_nonnull(type->definition)` for typedefs, rpc_server.c line
1064). -/
def typedef_chain_ok : RpctTypei → Bool
  | .mk _ _ (.mk _ _ _ _ cz d) _ =>
    if cz = .typedef_ then
      match d with
      | none => false
      | some dt => typedef_chain_ok dt
    else true

theorem unwind_typei_total :
    ∀ (t : RpctTypei), typedef_chain_ok t = true →
      ∃ u, rpct_unwind_typei (some t) = some u ∧ u.type.clazz ≠ .typedef_
  | .mk proxy vn (.mk n par g vars cz d) specs, h => by
    by_cases hcz : cz = .typedef_
    · subst hcz
      rw [typedef_chain_ok.eq_def] at h
      simp only [if_pos rfl] at h
      match d, h with
      | some dt, h =>
        have ih := unwind_typei_total dt h
        simpa [rpct_unwind_typei] using ih
    · refine ⟨.mk proxy vn (.mk n par g vars cz d) specs, ?_, ?_⟩
      · simp [rpct_unwind_typei, hcz]
      · simpa [RpctTypei.type, RpctType.clazz] using hcz

/-- C7: for every type instance whose typedef definition chain is
acyclic (guaranteed here by the inductive representation) and complete
(every typedef has a definition, as the loader asserts), unwinding
terminates — `rpct_unwind_typei` is a total function of the model — and
yields a non-typedef instance. -/
theorem c7_unwind_terminates_nontypedef (t : RpctTypei)
    (h : typedef_chain_ok t = true) :
    ∃ u, rpct_unwind_typei (some t) = some u ∧ u.type.clazz ≠ .typedef_ :=
  unwind_typei_total t h

/-- Builtin `int64` type. -/
def exTypeInt64 : RpctType := .mk "int64" none false [] .builtin_ none

/-- A type instance of builtin `int64`. -/
def exTypeiInt64 : RpctTypei := .mk false "" exTypeInt64 []

/-- A typedef type `MyInt` whose definition is `int64`. -/
def exTypeMyInt : RpctType :=
  .mk "MyInt" none false [] .typedef_ (some exTypeiInt64)

/-- A type instance of the typedef `MyInt`. -/
def exTypeiMyInt : RpctTypei := .mk false "" exTypeMyInt []

theorem c7_unwind_terminates_nontypedef_witness :
    typedef_chain_ok exTypeiMyInt = true ∧
      ∃ u, rpct_unwind_typei (some exTypeiMyInt) = some u ∧
        u.type.clazz ≠ .typedef_ := by
  refine ⟨?_, c7_unwind_terminates_nontypedef exTypeiMyInt ?_⟩ <;>
    simp [typedef_chain_ok, exTypeiMyInt, exTypeMyInt, exTypeiInt64,
      exTypeInt64]

mutual
/-- `rpct_canonical_type` (rpc_server.c lines 856-890): a proxy renders as
its variable name, a non-generic instance as its type name, and a generic
instance as the type name followed by the angle-bracketed specializations. -/
def rpct_canonical_type : RpctTypei → String
  | .mk proxy vn ty specs =>
    if proxy then vn
    else if !ty.generic then ty.name
    else
      ty.name ++ "<" ++
        rpct_canonical_specializations specs.length specs 0 "" ++ ">"

/-- The specialization loop of `rpct_canonical_type` (rpc_server.c lines
875-886): walk the specialization table with a counter `i`, appending
each entry's canonical form and a comma while `i < size - 1`. Caveat:
the C walks the GHashTable with a GHashTableIter, whose visiting order
GLib leaves unspecified; the model visits the association list in
insertion order. No theorem in this file depends on the visiting order
of this loop — only the non-generic and proxy branches of
`rpct_canonical_type`, which bypass it, are relied upon. -/
def rpct_canonical_specializations (total : Nat) :
    List (String × RpctTypei) → Nat → String → String
  | [], _, acc => acc
  | (_, v) :: rest, i, acc =>
    rpct_canonical_specializations total rest (i + 1)
      (acc ++ rpct_canonical_type v ++ (if i < total - 1 then "," else ""))
end

/-- Builtin `string` type. -/
def exTypeString : RpctType := .mk "string" none false [] .builtin_ none

/-- A type instance of builtin `string`. -/
def exTypeiString : RpctTypei := .mk false "" exTypeString []

/-- `rpc_type_t`: the kinds of the dynamic object model. -/
inductive RpcType where
  | null
  | bool
  | uint64
  | int64
  | double
  | date
  | string
  | binary
  | fd
  | dictionary
  | array
  | shmem
  | error
deriving DecidableEq

/-- Modelled from the spec: `rpc_get_type_name` (object.c is not part of
src/). The names follow the spec's built-in type list (§6), with the null
kind named "null" — `rpct_deserialize` maps the name "null" back to the
builtin "nulltype" (rpc_server.c lines 2217-2219). -/
def rpc_get_type_name : RpcType → String
  | .null => "null"
  | .bool => "bool"
  | .uint64 => "uint64"
  | .int64 => "int64"
  | .double => "double"
  | .date => "date"
  | .string => "string"
  | .binary => "binary"
  | .fd => "fd"
  | .dictionary => "dictionary"
  | .array => "array"
  | .shmem => "shmem"
  | .error => "error"

/-- `struct rpc_object`, restricted to the fields the typing layer reads:
the kind tag and the optional type-instance pointer `ro_typei`. -/
structure RpcObject where
  ro_type : RpcType
  ro_typei : Option RpctTypei

/-- One entry of the validation error array (`struct
rpct_validation_error`, path and message). -/
structure RpctValidationError where
  path : String
  message : String
deriving DecidableEq

/-- `struct rpct_error_context`: current dot-path and accumulated
errors. -/
structure RpctErrorContext where
  path : String
  errors : List RpctValidationError

/-- `rpct_add_error` (rpc_server.c lines 2241-2256): append an error
carrying the context's current path. -/
def rpct_add_error (ctx : RpctErrorContext) (msg : String) :
    RpctErrorContext :=
  { ctx with errors := ctx.errors ++ [⟨ctx.path, msg⟩] }

/-- A per-class validator (`handler->validate_fn`); the class handler
implementations live outside src/, so theorems quantify over this. -/
abbrev ClassValidator :=
  RpctTypei → RpcObject → RpctErrorContext → Bool × RpctErrorContext

/-- `rpct_validate_instance` (rpc_server.c lines 1447-1499). Step 1
handles untyped objects, step 2 runs the compatibility check, step 3
dispatches the per-class validator. An exhausted typedef chain (NULL
`raw_typei`) would crash in C and cannot occur for loaded IDLs; the model
returns failure there. -/
def rpct_validate_instance (vfn : ClassValidator) (typei : RpctTypei)
    (obj : RpcObject) (errctx : RpctErrorContext) :
    Bool × RpctErrorContext :=
  match rpct_unwind_typei (some typei) with
  | none => (false, errctx)
  | some raw =>
    match obj.ro_typei with
    | none =>
      if rpct_canonical_type raw == "any" then vfn raw obj errctx
      else if rpct_canonical_type raw == "nullptr"
          && obj.ro_type == RpcType.null then vfn raw obj errctx
      else if rpc_get_type_name obj.ro_type == rpct_canonical_type raw then
        vfn raw obj errctx
      else
        (false, rpct_add_error errctx
          ("Incompatible type " ++ rpc_get_type_name obj.ro_type ++
            ", should be " ++ rpct_canonical_type raw))
    | some oti =>
      if !rpct_type_is_compatible raw oti then
        (false, rpct_add_error errctx
          ("Incompatible type " ++ rpct_canonical_type oti ++
            ", should be " ++ rpct_canonical_type typei))
      else vfn raw obj errctx

/-- C4: for an object with no type-instance attached, validation passes
the type-check step (reaching the per-class validator) exactly when the
object's builtin type name equals the typedef-unwound canonical form, or
that form is "any", or it is "nullptr" and the object is null; otherwise
an incompatibility error is recorded and validation returns false. -/
theorem c4_untyped_object_type_check (vfn : ClassValidator)
    (typei raw : RpctTypei) (obj : RpcObject) (errctx : RpctErrorContext)
    (hun : rpct_unwind_typei (some typei) = some raw)
    (hno : obj.ro_typei = none) :
    rpct_validate_instance vfn typei obj errctx =
      if rpc_get_type_name obj.ro_type = rpct_canonical_type raw
          ∨ rpct_canonical_type raw = "any"
          ∨ (rpct_canonical_type raw = "nullptr" ∧ obj.ro_type = .null)
      then vfn raw obj errctx
      else (false, rpct_add_error errctx
        ("Incompatible type " ++ rpc_get_type_name obj.ro_type ++
          ", should be " ++ rpct_canonical_type raw)) := by
  simp only [rpct_validate_instance, hun, hno]
  by_cases h1 : rpct_canonical_type raw = "any" <;>
    by_cases h2 : rpct_canonical_type raw = "nullptr" <;>
      by_cases h3 : obj.ro_type = RpcType.null <;>
        by_cases h4 : rpc_get_type_name obj.ro_type = rpct_canonical_type raw <;>
          simp_all

/-- An untyped object of kind int64 (no type-instance attached). -/
def exUntypedInt64Obj : RpcObject := ⟨.int64, none⟩

theorem unwind_exTypeiString :
    rpct_unwind_typei (some exTypeiString) = some exTypeiString := by
  simp [exTypeiString, exTypeString, rpct_unwind_typei]

theorem c4_untyped_object_type_check_witness :
    (rpct_unwind_typei (some exTypeiString) = some exTypeiString ∧
      exUntypedInt64Obj.ro_typei = none) ∧
    rpct_validate_instance (fun _ _ e => (true, e)) exTypeiString
        exUntypedInt64Obj ⟨"", []⟩ =
      if rpc_get_type_name exUntypedInt64Obj.ro_type =
            rpct_canonical_type exTypeiString
          ∨ rpct_canonical_type exTypeiString = "any"
          ∨ (rpct_canonical_type exTypeiString = "nullptr" ∧
              exUntypedInt64Obj.ro_type = .null)
      then (true, ⟨"", []⟩)
      else (false, rpct_add_error ⟨"", []⟩
        ("Incompatible type " ++ rpc_get_type_name exUntypedInt64Obj.ro_type
          ++ ", should be " ++ rpct_canonical_type exTypeiString)) :=
  ⟨⟨unwind_exTypeiString, rfl⟩,
    c4_untyped_object_type_check (fun _ _ e => (true, e)) exTypeiString
      exTypeiString exUntypedInt64Obj ⟨"", []⟩ unwind_exTypeiString rfl⟩

/-- `struct rpct_argument`: a declared method argument with its type
instance. -/
structure RpctArgument where
  name : String
  type : RpctTypei

/-- `struct rpct_if_member`, restricted to what validation reads: the
optional declared argument list and the optional result type. A method's
argument array may be absent (`arguments == NULL`). -/
structure RpctIfMember where
  name : String
  arguments : Option (List RpctArgument)
  result : Option RpctTypei

/-- The `rpc_array_apply` loop of `rpct_validate_args` (rpc_server.c
lines 1516-1527): iterate the argument objects with their index, stop as
soon as the index reaches the declared argument count, validate each
object against the declared argument's type, and clear `valid` on any
failure. -/
def rpct_validate_args_loop (vfn : ClassValidator)
    (argList : List RpctArgument) :
    List RpcObject → Nat → RpctErrorContext → Bool → Bool × RpctErrorContext
  | [], _, errctx, valid => (valid, errctx)
  | a :: rest, idx, errctx, valid =>
    if h : idx < argList.length then
      let r := rpct_validate_instance vfn (argList.get ⟨idx, h⟩).type a errctx
      rpct_validate_args_loop vfn argList rest (idx + 1) r.2 (valid && r.1)
    else (valid, errctx)

/-- `rpct_validate_args` (rpc_server.c lines 1501-1543): true immediately
when no argument list is declared (the `errors` out-parameter is then
left unset, hence `none`); otherwise run the indexed loop from a fresh
error context and hand back the collected error array. -/
def rpct_validate_args (vfn : ClassValidator) (func : RpctIfMember)
    (args : List RpcObject) : Bool × Option (List RpctValidationError) :=
  match func.arguments with
  | none => (true, none)
  | some argList =>
    let r := rpct_validate_args_loop vfn argList args 0 ⟨"", []⟩ true
    (r.1, some r.2.errors)

theorem rpct_validate_args_loop_take (vfn : ClassValidator)
    (argList : List RpctArgument) :
    ∀ (args : List RpcObject) (idx : Nat) (errctx : RpctErrorContext)
      (valid : Bool),
      rpct_validate_args_loop vfn argList args idx errctx valid =
        rpct_validate_args_loop vfn argList
          (args.take (argList.length - idx)) idx errctx valid := by
  intro args
  induction args with
  | nil => intro idx errctx valid; simp
  | cons a rest ih =>
    intro idx errctx valid
    by_cases h : idx < argList.length
    · have htake : (a :: rest).take (argList.length - idx) =
          a :: rest.take (argList.length - (idx + 1)) := by
        rw [show argList.length - idx = (argList.length - (idx + 1)) + 1 from
          by omega]
        rfl
      rw [htake]
      rw [rpct_validate_args_loop, rpct_validate_args_loop]
      rw [dif_pos h, dif_pos h]
      exact ih (idx + 1) _ _
    · have htake : argList.length - idx = 0 := by omega
      rw [htake]
      rw [List.take_zero]
      rw [rpct_validate_args_loop, rpct_validate_args_loop]
      rw [dif_neg h]

/-- C10: when the interface member declares an argument list of length N,
only the first N inbound arguments are validated — trailing extras change
neither the verdict nor the collected error array — and when no argument
list is declared at all the function returns true. -/
theorem c10_extra_args_ignored (vfn : ClassValidator) (func : RpctIfMember)
    (argList : List RpctArgument) (args : List RpcObject)
    (hdecl : func.arguments = some argList)
    (hlong : argList.length < args.length) :
    rpct_validate_args vfn func args =
        rpct_validate_args vfn func (args.take argList.length) ∧
      ∀ g : RpctIfMember, g.arguments = none →
        rpct_validate_args vfn g args = (true, none) := by
  constructor
  · simp only [rpct_validate_args, hdecl]
    rw [rpct_validate_args_loop_take vfn argList args 0,
      rpct_validate_args_loop_take vfn argList (args.take argList.length) 0]
    rw [Nat.sub_zero, List.take_take, min_self]
  · intro g hg
    simp [rpct_validate_args, hg]

/-- A method member declaring the single argument `a : string`. -/
def exMethodOneString : RpctIfMember :=
  ⟨"frobnicate", some [⟨"a", exTypeiString⟩], none⟩

theorem c10_extra_args_ignored_witness :
    (exMethodOneString.arguments = some [⟨"a", exTypeiString⟩] ∧
      ([⟨"a", exTypeiString⟩] : List RpctArgument).length <
        ([exUntypedInt64Obj, exUntypedInt64Obj] : List RpcObject).length) ∧
    (rpct_validate_args (fun _ _ e => (true, e)) exMethodOneString
        [exUntypedInt64Obj, exUntypedInt64Obj] =
      rpct_validate_args (fun _ _ e => (true, e)) exMethodOneString
        ([exUntypedInt64Obj, exUntypedInt64Obj].take 1) ∧
      ∀ g : RpctIfMember, g.arguments = none →
        rpct_validate_args (fun _ _ e => (true, e)) g
          [exUntypedInt64Obj, exUntypedInt64Obj] = (true, none)) :=
  ⟨⟨rfl, by decide⟩,
    c10_extra_args_ignored (fun _ _ e => (true, e)) exMethodOneString
      [⟨"a", exTypeiString⟩] [exUntypedInt64Obj, exUntypedInt64Obj] rfl
      (by decide)⟩

/-- Association-list lookup, the observable behaviour of
`g_hash_table_lookup`. -/
def assocLookup {α : Type} : List (String × α) → String → Option α
  | [], _ => none
  | (k, v) :: rest, key => if k == key then some v else assocLookup rest key

/-- `struct rpct_interface`, restricted to its member table. -/
structure RpctInterface where
  name : String
  members : List (String × RpctIfMember)

/-- The loaded interface table `context->interfaces`. -/
abbrev InterfaceTable := List (String × RpctInterface)

/-- `rpct_find_if_member` (rpc_server.c lines 2098-2117): look up the
interface, then the member inside it. -/
def rpct_find_if_member (interfaces : InterfaceTable)
    (interface member : String) : Option RpctIfMember :=
  match assocLookup interfaces interface with
  | none => none
  | some iface => assocLookup iface.members member

/-- POSIX EINVAL. -/
def EINVAL : Int := 22

/-- An error object as produced by `rpc_error_create(code, msg, extra)`:
code, message and the extra payload (here always the packed validation
error array). -/
structure RpcError where
  code : Int
  message : String
  extra : List RpctValidationError
deriving DecidableEq

/-- `rpct_pre_call_hook` (rpc_server.c lines 1584-1605): find the called
interface member; when argument validation fails, respond through
`rpc_function_error_ex` with an EINVAL error object carrying the
"Validation failed: N errors" message and the validation error array.
The returned value models the error response the hook raises (`none` =
no response raised). -/
def rpct_pre_call_hook (vfn : ClassValidator) (interfaces : InterfaceTable)
    (interfaceName methodName : String) (args : List RpcObject) :
    Option RpcError :=
  match rpct_find_if_member interfaces interfaceName methodName with
  | none => none
  | some member =>
    let r := rpct_validate_args vfn member args
    if r.1 then none
    else
      some ⟨EINVAL,
        "Validation failed: " ++ toString (r.2.getD []).length ++ " errors",
        r.2.getD []⟩

/-- Modelled from the spec: the context worker's inbound-call dispatch
(rpc_context.c is not part of src/). Per §2 the worker "applies pre-call
validation, runs the method", and per §4.3 when argument validation fails
it responds with the EINVAL error and "the method implementation is not
invoked". The result pairs the hook's error response (if any) with
whether the registered implementation ran. -/
def rpc_context_run_inbound_call (vfn : ClassValidator)
    (interfaces : InterfaceTable) (interfaceName methodName : String)
    (args : List RpcObject) : Option RpcError × Bool :=
  match rpct_pre_call_hook vfn interfaces interfaceName methodName args with
  | some e => (some e, false)
  | none => (none, true)

/-- C2: an inbound call whose arguments fail pre-call validation against
the declared interface member is answered with an EINVAL error carrying
the "Validation failed" message and the array of validation errors, and
the registered method implementation is not invoked. -/
theorem c2_validation_failure_blocks_call (vfn : ClassValidator)
    (interfaces : InterfaceTable) (interfaceName methodName : String)
    (args : List RpcObject) (member : RpctIfMember)
    (errs : List RpctValidationError)
    (hfind : rpct_find_if_member interfaces interfaceName methodName =
      some member)
    (hval : rpct_validate_args vfn member args = (false, some errs)) :
    rpc_context_run_inbound_call vfn interfaces interfaceName methodName
        args =
      (some ⟨EINVAL, "Validation failed: " ++ toString errs.length ++
        " errors", errs⟩, false) := by
  simp [rpc_context_run_inbound_call, rpct_pre_call_hook, hfind, hval]

/-- An interface table declaring `com.example.Calc` with the method
`frobnicate(a : string)`. -/
def exInterfaces : InterfaceTable :=
  [("com.example.Calc",
    ⟨"com.example.Calc", [("frobnicate", exMethodOneString)]⟩)]

/-- The validation error that validating an untyped int64 argument
against declared type `string` produces. -/
def exValidationError : RpctValidationError :=
  ⟨"", "Incompatible type int64, should be string"⟩

theorem validate_args_exMethod_eval :
    rpct_validate_args (fun _ _ e => (true, e)) exMethodOneString
      [exUntypedInt64Obj] = (false, some [exValidationError]) := by
  rw [rpct_validate_args]
  simp only [exMethodOneString]
  rw [rpct_validate_args_loop]
  rw [dif_pos (by decide : 0 < ([⟨"a", exTypeiString⟩] :
    List RpctArgument).length)]
  simp only [List.get, rpct_validate_instance, unwind_exTypeiString]
  rw [show rpct_canonical_type exTypeiString = "string" from by
    rw [exTypeiString, rpct_canonical_type]
    simp [exTypeString, RpctType.generic, RpctType.name]]
  simp [exUntypedInt64Obj, rpc_get_type_name, rpct_validate_args_loop,
    rpct_add_error, exValidationError]

theorem c2_validation_failure_blocks_call_witness :
    (rpct_find_if_member exInterfaces "com.example.Calc" "frobnicate" =
        some exMethodOneString ∧
      rpct_validate_args (fun _ _ e => (true, e)) exMethodOneString
        [exUntypedInt64Obj] = (false, some [exValidationError])) ∧
    rpc_context_run_inbound_call (fun _ _ e => (true, e)) exInterfaces
        "com.example.Calc" "frobnicate" [exUntypedInt64Obj] =
      (some ⟨EINVAL, "Validation failed: " ++
        toString ([exValidationError] : List RpctValidationError).length ++
        " errors", [exValidationError]⟩, false) :=
  ⟨⟨rfl, validate_args_exMethod_eval⟩,
    c2_validation_failure_blocks_call (fun _ _ e => (true, e)) exInterfaces
      "com.example.Calc" "frobnicate" [exUntypedInt64Obj] exMethodOneString
      [exValidationError] rfl validate_args_exMethod_eval⟩

/-- The name component of a type instance declaration (capture group 1 of
INSTANCE_REGEX). Modelled from the spec: the regex lives in the
repository's internal typing header, which is not under src/; per the
spec grammar (§6) a type instance is `name` optionally followed by an
angle-bracketed variable list, so the name is everything before the
first angle bracket. -/
def rpct_instance_decltype (decl : String) : String :=
  ⟨decl.data.takeWhile (fun c => c ≠ '<')⟩

/-- The mutable state `rpct_instantiate_type` touches for non-generic
declarations: the canonical cache `context->typei_cache` (canonical form
→ shared instance) and an allocation counter standing in for pointer
identity — equal ids mean pointer-equal instances. -/
structure TypeiCacheState where
  typei_cache : List (String × Nat)
  next_id : Nat

/-- `g_hash_table_insert` on the cache: the new binding shadows any older
one with the same key. -/
def typei_cache_insert (tbl : List (String × Nat)) (k : String) (v : Nat) :
    List (String × Nat) :=
  (k, v) :: tbl

/-- `rpct_instantiate_type` (rpc_server.c lines 517-678) restricted to
the paths a non-generic resolved type takes with NULL `parent`, `ptype`
and `origin`: parse the name, resolve it (fuzzy with no origin), consult
the canonical cache keyed by the parsed name (line 558), else allocate a
fresh instance and, at the end, cache it keyed by its canonical form
(lines 672-675). Declarations resolving to generic types take the
specialization path, which is outside this fragment (`none` here). -/
def rpct_instantiate_type_nongeneric (types : TypeTable) (decl : String)
    (st : TypeiCacheState) : Option Nat × TypeiCacheState :=
  let decltype := rpct_instance_decltype decl
  match rpct_find_type_fuzzy types decltype none with
  | none => (none, st)
  | some type =>
    if type.generic then (none, st)
    else
      match assocLookup st.typei_cache decltype with
      | some cached => (some cached, st)
      | none =>
        let id := st.next_id
        let canonical := rpct_canonical_type (.mk false "" type [])
        (some id, ⟨typei_cache_insert st.typei_cache canonical id, id + 1⟩)

theorem canonical_nongeneric_is_name (ty : RpctType)
    (hng : ty.generic = false) :
    rpct_canonical_type (.mk false "" ty []) = ty.name := by
  rw [rpct_canonical_type]
  simp [RpctTypei.type, hng]

/-- C3: for a non-generic type, instantiating its canonical form twice
yields the same shared instance (equal allocation ids model pointer
equality): the canonical cache maps the canonical form to a single
instance. -/
theorem c3_canonical_cache_shared (types : TypeTable) (decl : String)
    (ty : RpctType) (st : TypeiCacheState)
    (hfind : types (rpct_instance_decltype decl) = some ty)
    (hng : ty.generic = false)
    (hname : ty.name = rpct_instance_decltype decl) :
    ∃ n,
      (rpct_instantiate_type_nongeneric types decl st).1 = some n ∧
        (rpct_instantiate_type_nongeneric types decl
          (rpct_instantiate_type_nongeneric types decl st).2).1 = some n := by
  simp only [rpct_instantiate_type_nongeneric, rpct_find_type_fuzzy,
    rpct_find_type, hfind, hng, Bool.false_eq_true, if_false]
  cases hcache : assocLookup st.typei_cache (rpct_instance_decltype decl) with
  | some cached =>
    exact ⟨cached, by simp [hcache], by simp [hcache]⟩
  | none =>
    refine ⟨st.next_id, by simp [hcache], ?_⟩
    simp only [hcache]
    rw [canonical_nongeneric_is_name ty hng, hname]
    simp [typei_cache_insert, assocLookup]

/-- A non-generic enum type with a fully qualified name. -/
def exTypeColor : RpctType :=
  .mk "com.example.Color" none false [] .enum_ none

/-- A type table containing just `com.example.Color`. -/
def exColorTable : TypeTable :=
  fun n => if n == "com.example.Color" then some exTypeColor else none

theorem c3_canonical_cache_shared_witness :
    (exColorTable (rpct_instance_decltype "com.example.Color") =
        some exTypeColor ∧
      exTypeColor.generic = false ∧
      exTypeColor.name = rpct_instance_decltype "com.example.Color") ∧
    ∃ n,
      (rpct_instantiate_type_nongeneric exColorTable "com.example.Color"
        ⟨[], 0⟩).1 = some n ∧
        (rpct_instantiate_type_nongeneric exColorTable "com.example.Color"
          (rpct_instantiate_type_nongeneric exColorTable "com.example.Color"
            ⟨[], 0⟩).2).1 = some n :=
  ⟨⟨rfl, rfl, by decide⟩,
    c3_canonical_cache_shared exColorTable "com.example.Color" exTypeColor
      ⟨[], 0⟩ rfl rfl (by decide)⟩

/-- `struct rpc_server`, restricted to the fields the close/accept logic
reads: the closed flag, the connection list (connections as ids) and the
optional teardown hook result. -/
structure RpcServerSt where
  rs_closed : Bool
  rs_connections : List Nat
  rs_teardown : Option Int

/-- `rpc_server_accept` (rpc_server.c lines 36-53): a closed server
refuses with -1 and does not touch the connection list; otherwise the
connection is appended (`g_list_append`) and a connection-arrived item is
dispatched (the dispatch side effect is outside this state). -/
def rpc_server_accept (server : RpcServerSt) (conn : Nat) :
    Int × RpcServerSt :=
  if server.rs_closed then (-1, server)
  else (0, { server with rs_connections := server.rs_connections ++ [conn] })

/-- `g_ptr_array_remove`: drop the first occurrence, reporting whether
one was found. -/
def g_ptr_array_remove : List Nat → Nat → Bool × List Nat
  | [], _ => (false, [])
  | x :: rest, v =>
    if x == v then (true, rest)
    else
      let r := g_ptr_array_remove rest v
      (r.1, x :: r.2)

/-- `rpc_server_close` (rpc_server.c lines 216-260), up to the
connection-drain wait (a pure concurrency step): remove the server from
the context's server list (the source reaches that list through a
file-scope `context`; the create path shows it is the server's own
context, rpc_server.c lines 120-122), return -1 when it was absent, else
mark the server closed and run the teardown hook. -/
def rpc_server_close (servers : List Nat) (sid : Nat)
    (server : RpcServerSt) : Int × List Nat × RpcServerSt :=
  let r := g_ptr_array_remove servers sid
  if !r.1 then (-1, r.2, server)
  else
    let server' := { server with rs_closed := true }
    let ret : Int :=
      match server'.rs_teardown with
      | some t => t
      | none => 0
    (ret, r.2, server')

theorem g_ptr_array_remove_not_mem (v : Nat) :
    ∀ l : List Nat, v ∉ l → g_ptr_array_remove l v = (false, l) := by
  intro l
  induction l with
  | nil => intro _; rfl
  | cons x rest ih =>
    intro hnm
    have hxv : x ≠ v := fun h =>
      hnm (by rw [h]; exact List.mem_cons_self v rest)
    rw [g_ptr_array_remove, if_neg (by simp [hxv])]
    simp [ih (fun h => hnm (List.mem_cons_of_mem x h))]

/-- C8: closing a server that is absent from its context's server list
returns -1 (the removal is a no-op); closing a present server marks it
closed, and every subsequent accept on it returns -1 without adding the
connection. -/
theorem c8_close_marks_closed_accept_refuses (servers : List Nat)
    (sid : Nat) (server : RpcServerSt) :
    (sid ∉ servers →
      rpc_server_close servers sid server = (-1, servers, server)) ∧
    (sid ∈ servers →
      (rpc_server_close servers sid server).2.2.rs_closed = true ∧
        ∀ conn : Nat,
          rpc_server_accept (rpc_server_close servers sid server).2.2 conn =
            (-1, (rpc_server_close servers sid server).2.2)) := by
  constructor
  · intro habs
    rw [rpc_server_close, g_ptr_array_remove_not_mem sid servers habs]
    simp
  · intro hmem
    have hfound : (g_ptr_array_remove servers sid).1 = true := by
      induction servers with
      | nil => cases hmem
      | cons x rest ih =>
        rw [g_ptr_array_remove]
        by_cases hx : x = sid
        · simp [hx]
        · rw [if_neg (by simpa using hx)]
          exact ih (by rcases List.mem_cons.mp hmem with h | h
                       · exact absurd h.symm hx
                       · exact h)
    constructor
    · rw [rpc_server_close]
      simp [hfound]
    · intro conn
      rw [rpc_server_close]
      simp only [hfound, Bool.not_true, Bool.false_eq_true, if_false]
      rw [rpc_server_accept]
      simp

theorem c8_close_marks_closed_accept_refuses_witness :
    ((7 : Nat) ∉ ([] : List Nat) ∧
      rpc_server_close [] 7 ⟨false, [], none⟩ =
        (-1, [], ⟨false, [], none⟩)) ∧
    ((5 : Nat) ∈ [5] ∧
      (rpc_server_close [5] 5 ⟨false, [], none⟩).2.2.rs_closed = true ∧
        ∀ conn : Nat,
          rpc_server_accept (rpc_server_close [5] 5
              ⟨false, [], none⟩).2.2 conn =
            (-1, (rpc_server_close [5] 5 ⟨false, [], none⟩).2.2)) :=
  ⟨⟨by decide,
    (c8_close_marks_closed_accept_refuses [] 7 ⟨false, [], none⟩).1
      (by decide)⟩,
   ⟨by decide,
    (c8_close_marks_closed_accept_refuses [5] 5 ⟨false, [], none⟩).2
      (by decide)⟩⟩

/-- The early-return bounds check of `rpct_type_get_generic_var`
(rpc_server.c lines 1863-1870): reject when `index < 0 || index >
type->generic_vars->len`. -/
def generic_var_index_rejected (ty : RpctType) (index : Int) : Bool :=
  index < 0 || index > (ty.generic_vars.length : Int)

/-- `rpct_type_get_generic_var` as modelled: the source's bounds check
followed by `g_ptr_array_index`; in the model the unchecked array read
is `List.get?`, which masks (with `none`) the out-of-bounds access the C
performs when `index == len` slips past the check. -/
def rpct_type_get_generic_var (ty : RpctType) (index : Int) :
    Option String :=
  if generic_var_index_rejected ty index then none
  else ty.generic_vars.get? index.toNat

/-- The early-return bounds check of `rpct_method_get_argument`
(rpc_server.c lines 1985-1993): reject when `index < 0 || index >
method->arguments->len`. -/
def method_argument_index_rejected (method : RpctIfMember)
    (index : Int) : Bool :=
  index < 0 || index > ((method.arguments.getD []).length : Int)

/-- `rpct_method_get_argument` as modelled, like
`rpct_type_get_generic_var`. -/
def rpct_method_get_argument (method : RpctIfMember) (index : Int) :
    Option RpctArgument :=
  if method_argument_index_rejected method index then none
  else (method.arguments.getD []).get? index.toNat

/-- A generic type with exactly one generic variable. -/
def exTypeList : RpctType := .mk "List" none true ["T"] .struct_ none

/-- C9: at `index = count` (here 1, with one generic variable and one
declared argument) the bounds checks of `rpct_type_get_generic_var` and
`rpct_method_get_argument` do NOT reject — the comparison is `index >
len`, not `index >= len` — yet no element with that index exists, so the
C functions go on to read `g_ptr_array_index(..., len)` out of bounds
instead of returning NULL as the claim (and the header comment in
typing.h) requires. -/
theorem c9_index_bound_check_off_by_one :
    generic_var_index_rejected exTypeList 1 = false ∧
      exTypeList.generic_vars.get? 1 = none ∧
      method_argument_index_rejected exMethodOneString 1 = false ∧
      (exMethodOneString.arguments.getD []).get? 1 = none := by
  refine ⟨rfl, rfl, rfl, rfl⟩

end Librpc
